import Mathlib

/-!
Verification development for the `rust-target-tuples` repository.

The repository is a Cargo workspace holding two generations of the same
library:

* the root crate `target-tuples` (files `src/pieces.rs`, `src/lib.rs`):
  enumerations with exact/alias tables, a `Target` record whose second
  tuple segment is always the vendor, a strict `FromStr` parser, a lossy
  `Target::parse`, the `get_object_format` default table and the
  `match_targets!` first-match dispatch macro;
* the crate `target-tuple-pieces` (file `target-tuple-pieces/src/lib.rs`):
  reworked enumerations and the `System` record with its constructors,
  `Display` rendering and `FromStr` parser, consumed by the proc-macro
  pattern compiler in `target-tuples-macro`.

Namespaces `target_tuples` and `target_tuple_pieces` below embed the two
crates.  Rust `Result<T, UnknownError>` is embedded as `Option`
(`none` = `Err(UnknownError)`), panics are embedded as `none`, and the
`match_targets!` macro expansion (an ordered chain of predicate tests
ending in `unreachable!`) is embedded as a recursion over an ordered
list of arms returning `Except DispatchError`.
-/

/-- Rust `str::starts_with` on character lists: `starts_with p s` is true
when `p` is a leading piece of `s`. -/
def starts_with (p s : List Char) : Bool :=
  match p, s with
  | [], _ => true
  | _ :: _, [] => false
  | a :: ps, b :: ss => a == b && starts_with ps ss

/-- Rust `str::ends_with` on character lists: `ends_with p s` is true when
`p` is a trailing piece of `s`. -/
def ends_with (p s : List Char) : Bool :=
  starts_with p.reverse s.reverse

/-- Rust `str::split` at a separator character: every maximal piece
between separators, keeping empty pieces, never empty as a list. -/
def str_split (c : Char) : List Char → List (List Char)
  | [] => [[]]
  | x :: xs =>
    let r := str_split c xs
    if x == c then [] :: r
    else
      match r with
      | [] => [[x]]
      | y :: ys => (x :: y) :: ys

/-- Rust `str::starts_with` on strings: receiver first, pattern second. -/
def str_starts (s p : String) : Bool :=
  starts_with p.data s.data

/-- Rust `str::ends_with` on strings: receiver first, pattern second. -/
def str_ends (s p : String) : Bool :=
  ends_with p.data s.data

/-- Rust `s.split('-')` collected into a list of strings. -/
def split_dash (s : String) : List String :=
  (str_split '-' s.data).map String.mk

/-- Joins character-list pieces back with a dash between them. -/
def intercalate_dash : List (List Char) → List Char
  | [] => []
  | [x] => x
  | x :: xs => x ++ '-' :: intercalate_dash xs

/-- Rust `str::split_once('-')`: the pieces before and after the first
dash, or `none` when the text holds no dash. -/
def split_once (s : String) : Option (String × String) :=
  match str_split '-' s.data with
  | x :: y :: rest => some (String.mk x, String.mk (intercalate_dash (y :: rest)))
  | _ => none

namespace target_tuples

/-- Architecture field of the root crate (src/pieces.rs). -/
inductive Architecture where
  | Unknown
  | X86
  | X86_64
  | Arm
  | ArmBe
  | Aarch64
  | Aarch64Be
  | Aarch64_32
  | Mips
  | MipsLE
  | Mips64
  | Mips64LE
  | PowerPC32
  | PowerPC64
  | PowerPC64le
  | RiscV32
  | RiscV64
  | Sparc
  | SparcV9
  | SparcEL
  | Wasm32
  | Wasm64
  | Wc65c816
deriving DecidableEq, Repr, Fintype

/-- FromStr for Architecture (src/pieces.rs, exact alias table); `none` is `Err(UnknownError)`. -/
def Architecture.from_str (s : String) : Option Architecture :=
  match s with
  | "i386" | "i486" | "i586" | "i686" | "i786" | "i886" | "i986" => some .X86
  | "amd64" | "x86_64" | "x86_64h" => some .X86_64
  | "armeb" => some .ArmBe
  | "arm" => some .Arm
  | "aarch64" | "arm64" | "arm64e" => some .Aarch64
  | "aarch64_be" | "arm64_be" => some .Aarch64Be
  | "aarch64_32" | "arm64_32" => some .Aarch64_32
  | "powerpc" | "powerpcspe" | "ppc" | "ppc32" => some .PowerPC32
  | "powerpc64" | "ppu" | "ppc64" => some .PowerPC64
  | "powerpc64le" | "ppc64le" => some .PowerPC64le
  | "mips" | "mipseb" | "mipsallegrex" | "mipsisa32r6" | "mipsr6" => some .Mips
  | "mipsel" | "mipsallegrexel" | "mipsisa32r6el" | "mipsr6el" => some .MipsLE
  | "mips64" | "mips64eb" | "mipsn32" | "mipsisa64r6" | "mips64r6" | "mipsn32r6" => some .Mips64
  | "mips64el" | "mipsn32el" | "mipsisa64r6el" | "mips64r6el" | "mipsn32r6el" => some .Mips64LE
  | "sparc" => some .Sparc
  | "sparcel" => some .SparcEL
  | "sparcv9" | "sparc64" => some .SparcV9
  | "riscv32" => some .RiscV32
  | "riscv64" => some .RiscV64
  | "wc65c816" | "65816" | "w65c816" | "65c816" => some .Wc65c816
  | "wasm32" => some .Wasm32
  | "wasm64" => some .Wasm64
  | _ => none

/-- Lossy Architecture parse (src/pieces.rs `Architecture::parse`). -/
def Architecture.parse (st : String) : Architecture :=
  (Architecture.from_str st).getD .Unknown

/-- Canonical spelling of an Architecture (src/pieces.rs `canonical_name`). -/
def Architecture.canonical_name : Architecture → String
  | .Unknown => "unknown"
  | .X86 => "i386"
  | .X86_64 => "x86_64"
  | .Arm => "arm"
  | .ArmBe => "armeb"
  | .Aarch64 => "aarch64"
  | .Aarch64Be => "aarch64_be"
  | .Aarch64_32 => "aarch64_32"
  | .Mips => "mips"
  | .Mips64 => "mips64"
  | .PowerPC32 => "powerpc"
  | .PowerPC64 => "powerpc64"
  | .PowerPC64le => "powerpc64le"
  | .RiscV32 => "riscv32"
  | .RiscV64 => "riscv64"
  | .Sparc => "sparc"
  | .SparcV9 => "sparcv9"
  | .SparcEL => "sparcel"
  | .Wasm32 => "wasm32"
  | .Wasm64 => "wasm64"
  | .Wc65c816 => "wc65c816"
  | .MipsLE => "mipsel"
  | .Mips64LE => "mips64el"

/-- Vendor field of the root crate (src/pieces.rs). -/
inductive Vendor where
  | Unknown
  | Apple
  | PC
  | SNES
  | SCEI
  | Freescale
  | IBM
  | ImaginationTechnologies
  | MipsTechnologies
  | NVIDIA
  | CSR
  | Myriad
  | AMD
  | Mesa
  | SUSE
  | OpenEmbedded
deriving DecidableEq, Repr, Fintype

/-- FromStr for Vendor (src/pieces.rs); total, unknown text yields `Unknown`. -/
def Vendor.from_str (s : String) : Vendor :=
  match s with
  | "apple" => .Apple
  | "pc" => .PC
  | "snes" | "snesdev" => .SNES
  | "scei" => .SCEI
  | "fsl" => .Freescale
  | "img" => .ImaginationTechnologies
  | "ibm" => .IBM
  | "mti" => .MipsTechnologies
  | "nvidia" => .NVIDIA
  | "csr" => .CSR
  | "myriad" => .Myriad
  | "amd" => .AMD
  | "mesa" => .Mesa
  | "suse" => .SUSE
  | "oe" => .OpenEmbedded
  | _ => .Unknown

/-- Lossy Vendor parse (src/pieces.rs `Vendor::parse`), same as `from_str`. -/
def Vendor.parse (s : String) : Vendor :=
  Vendor.from_str s

/-- Canonical spelling of a Vendor (src/pieces.rs `canonical_name`). -/
def Vendor.canonical_name : Vendor → String
  | .Apple => "apple"
  | .PC => "pc"
  | .SNES => "snes"
  | .Unknown => "unknown"
  | .SCEI => "scei"
  | .Freescale => "fsl"
  | .IBM => "ibm"
  | .ImaginationTechnologies => "img"
  | .MipsTechnologies => "mti"
  | .NVIDIA => "nvidia"
  | .CSR => "csr"
  | .Myriad => "myriad"
  | .AMD => "amd"
  | .Mesa => "mesa"
  | .SUSE => "suse"
  | .OpenEmbedded => "oe"

/-- Operating System field of the root crate (src/pieces.rs). -/
inductive OS where
  | Unknown
  | Ananas
  | CloudABI
  | Darwin
  | DragonFly
  | FreeBSD
  | Fuchsia
  | IOS
  | KFreeBSD
  | Linux
  | Lv2
  | MacOSX
  | NetBSD
  | OpenBSD
  | Solaris
  | Win32
  | ZOS
  | Haiku
  | Minix
  | RTEMS
  | NaCl
  | AIX
  | CUDA
  | NVCL
  | AMDHSA
  | PS4
  | ELFIAMCU
  | TvOS
  | WatchOS
  | Mesa3D
  | Contiki
  | AMDPAL
  | HermitCore
  | Hurd
  | WASI
  | Emscripten
  | PhantomOS
deriving DecidableEq, Repr, Fintype

/-- FromStr for OS (src/pieces.rs); guards match on a leading piece of the text, tried in source order. -/
def OS.from_str (s : String) : Option OS :=
  if str_starts s "ananas" then some .Ananas
  else if str_starts s "cloudabi" then some .CloudABI
  else if str_starts s "darwin" then some .Darwin
  else if str_starts s "dragonfly" then some .DragonFly
  else if str_starts s "freebsd" then some .FreeBSD
  else if str_starts s "fuchsia" then some .Fuchsia
  else if str_starts s "ios" then some .IOS
  else if str_starts s "kfreebsd" then some .KFreeBSD
  else if str_starts s "linux" then some .Linux
  else if str_starts s "lv2" then some .Lv2
  else if str_starts s "macos" then some .MacOSX
  else if str_starts s "netbsd" then some .NetBSD
  else if str_starts s "openbsd" then some .OpenBSD
  else if str_starts s "solaris" then some .Solaris
  else if str_starts s "win32" || str_starts s "windows" then some .Win32
  else if str_starts s "zos" then some .ZOS
  else if str_starts s "haiku" then some .Haiku
  else if str_starts s "minix" then some .Minix
  else if str_starts s "rtems" then some .RTEMS
  else if str_starts s "nacl" then some .NaCl
  else if str_starts s "aix" then some .AIX
  else if str_starts s "cuda" then some .CUDA
  else if str_starts s "nvcl" then some .NVCL
  else if str_starts s "amdhsa" then some .AMDHSA
  else if str_starts s "ps4" then some .PS4
  else if str_starts s "elfiamcu" then some .ELFIAMCU
  else if str_starts s "tvos" then some .TvOS
  else if str_starts s "watchos" then some .WatchOS
  else if str_starts s "mesa3d" then some .Mesa3D
  else if str_starts s "contiki" then some .Contiki
  else if str_starts s "amdpal" then some .AMDPAL
  else if str_starts s "hermit" then some .HermitCore
  else if str_starts s "hurd" then some .Hurd
  else if str_starts s "wasi" then some .WASI
  else if str_starts s "emscripten" then some .Emscripten
  else if str_starts s "phantom" then some .PhantomOS
  else none

/-- Lossy OS parse (src/pieces.rs `OS::parse`). -/
def OS.parse (s : String) : OS :=
  (OS.from_str s).getD .Unknown

/-- Canonical spelling of an OS (src/pieces.rs `canonical_name`). -/
def OS.canonical_name : OS → String
  | .Unknown => "unknown"
  | .Ananas => "ananas"
  | .CloudABI => "cloudabi"
  | .Darwin => "darwin"
  | .DragonFly => "dragonfly"
  | .FreeBSD => "freebsd"
  | .Fuchsia => "fuchsia"
  | .IOS => "ios"
  | .KFreeBSD => "kfreebsd"
  | .Linux => "linux"
  | .Lv2 => "lv2"
  | .MacOSX => "macos"
  | .NetBSD => "netbsd"
  | .OpenBSD => "openbsd"
  | .Solaris => "solaris"
  | .Win32 => "win32"
  | .ZOS => "zos"
  | .Haiku => "haiku"
  | .Minix => "minix"
  | .RTEMS => "rtems"
  | .NaCl => "nacl"
  | .AIX => "aix"
  | .CUDA => "cuda"
  | .NVCL => "nvcl"
  | .AMDHSA => "amdhsa"
  | .PS4 => "ps4"
  | .ELFIAMCU => "elfiamcu"
  | .TvOS => "tvos"
  | .WatchOS => "watchos"
  | .Mesa3D => "mesa3d"
  | .Contiki => "contiki"
  | .AMDPAL => "amdpal"
  | .HermitCore => "hermit"
  | .Hurd => "hurd"
  | .WASI => "wasi"
  | .Emscripten => "emscripten"
  | .PhantomOS => "phantom"

/-- Environment field of the root crate (src/pieces.rs). -/
inductive Environment where
  | Unknown
  | GNU
  | GNUABIN32
  | GNUABI64
  | GNUEABI
  | GNUEABIHF
  | GNUX32
  | CODE16
  | EABI
  | EABIHF
  | Android
  | Musl
  | MuslEABI
  | MuslEABIHF
  | MSVC
  | Itanium
  | Cygnus
  | CoreCLR
  | Simulator
  | MacABI
  | PhantomStandard
  | PhantomKernel
deriving DecidableEq, Repr, Fintype

/-- FromStr for Environment (src/pieces.rs); guards tried in source order. -/
def Environment.from_str (s : String) : Option Environment :=
  if str_starts s "eabihf" then some .EABIHF
  else if str_starts s "eabi" then some .EABI
  else if str_starts s "gnuabin32" then some .GNUABIN32
  else if str_starts s "gnuabi64" then some .GNUABI64
  else if str_starts s "gnueabihf" then some .GNUEABIHF
  else if str_starts s "gnueabi" then some .GNUEABI
  else if str_starts s "gnux32" then some .GNUX32
  else if str_starts s "gnu" then some .GNU
  else if str_starts s "code16" then some .CODE16
  else if str_starts s "android" then some .Android
  else if str_starts s "musleabihf" then some .MuslEABIHF
  else if str_starts s "musleabi" then some .MuslEABI
  else if str_starts s "musl" then some .Musl
  else if str_starts s "msvc" then some .MSVC
  else if str_starts s "itanium" then some .Itanium
  else if str_starts s "cygnus" then some .Cygnus
  else if str_starts s "coreclr" then some .CoreCLR
  else if str_starts s "simulator" then some .Simulator
  else if str_starts s "macabi" then some .MacABI
  else if str_starts s "pstd" || str_starts s "standard" then some .PhantomStandard
  else if str_starts s "pkrnl" || str_starts s "kernel" then some .PhantomKernel
  else none

/-- Lossy Environment parse (src/pieces.rs `Environment::parse`). -/
def Environment.parse (s : String) : Environment :=
  (Environment.from_str s).getD .Unknown

/-- Canonical spelling of an Environment (src/pieces.rs `canonical_name`). -/
def Environment.canonical_name : Environment → String
  | .Unknown => "unknown"
  | .GNU => "gnu"
  | .GNUABIN32 => "gnuabin32"
  | .GNUABI64 => "gnuabi64"
  | .GNUEABI => "gnueabi"
  | .GNUEABIHF => "gnueabihf"
  | .GNUX32 => "gnux32"
  | .CODE16 => "code16"
  | .EABI => "eabi"
  | .EABIHF => "eabihf"
  | .Android => "android"
  | .Musl => "musl"
  | .MuslEABI => "musleabi"
  | .MuslEABIHF => "musleabihf"
  | .MSVC => "msvc"
  | .Itanium => "itanium"
  | .Cygnus => "cygnus"
  | .CoreCLR => "coreclr"
  | .Simulator => "simulator"
  | .MacABI => "macabi"
  | .PhantomStandard => "pstd"
  | .PhantomKernel => "pkrnl"

/-- Object format of the root crate (src/pieces.rs). -/
inductive ObjectFormat where
  | Unknown
  | XCoff
  | Coff
  | Elf
  | Goff
  | MachO
  | Wasm
deriving DecidableEq, Repr, Fintype

/-- FromStr for ObjectFormat (src/pieces.rs); guards match on a trailing piece of the text, in source order. -/
def ObjectFormat.from_str (s : String) : Option ObjectFormat :=
  if str_ends s "xcoff" then some .XCoff
  else if str_ends s "coff" then some .Coff
  else if str_ends s "elf" then some .Elf
  else if str_ends s "goff" then some .Goff
  else if str_ends s "macho" then some .MachO
  else if str_ends s "wasm" then some .Wasm
  else none

/-- Lossy ObjectFormat parse (src/pieces.rs `ObjectFormat::parse`). -/
def ObjectFormat.parse (s : String) : ObjectFormat :=
  (ObjectFormat.from_str s).getD .Unknown

/-- Canonical spelling of an ObjectFormat (src/pieces.rs `canonical_name`). -/
def ObjectFormat.canonical_name : ObjectFormat → String
  | .Unknown => "unknown"
  | .XCoff => "xcoff"
  | .Coff => "coff"
  | .Elf => "elf"
  | .Goff => "goff"
  | .MachO => "macho"
  | .Wasm => "wasm"

/-- Target record of the root crate (src/pieces.rs).  `full` retains the
input verbatim; the vendor field is mandatory (there is no absent-vendor
representation in this crate). -/
structure Target where
  full : String
  arch : Architecture
  vendor : Vendor
  os : Option OS
  env : Option Environment
  objfmt : Option ObjectFormat
deriving DecidableEq, Repr

/-- Helper that runs the remaining-field step of `Target::from_str`
(src/pieces.rs): with a fourth segment present, segment 3 must parse as an
OS and segment 4 must yield an environment or an object format; otherwise
segment 3 alone is tried as OS, then environment (with object-format
text-suffix piggyback), then object format. -/
def Target.from_str_fields (f3 : String) (f4 : Option String) :
    Option (Option OS × Option Environment × Option ObjectFormat) :=
  match f4 with
  | some s4 =>
    match OS.from_str f3 with
    | none => none
    | some o =>
      let env := Environment.from_str s4
      let objfmt := ObjectFormat.from_str s4
      if env.isNone && objfmt.isNone then none
      else some (some o, env, objfmt)
  | none =>
    match OS.from_str f3 with
    | some o => some (some o, none, none)
    | none =>
      match Environment.from_str f3 with
      | some e => some (none, some e, ObjectFormat.from_str f3)
      | none =>
        match ObjectFormat.from_str f3 with
        | some of => some (none, none, some of)
        | none => none

/-- Strict FromStr for Target (src/pieces.rs `impl FromStr for Target`):
segment 1 is the architecture (strict), segment 2 is always the vendor
(total), segment 3 is mandatory, segment 4 optional, later segments are
never consumed.  `none` is `Err(UnknownError)`. -/
def Target.from_str (s : String) : Option Target :=
  match split_dash s with
  | a1 :: a2 :: f3 :: rest =>
    match Architecture.from_str a1 with
    | none => none
    | some arch =>
      let vendor := Vendor.from_str a2
      match Target.from_str_fields f3 rest.head? with
      | none => none
      | some (os, env, objfmt) => some ⟨s, arch, vendor, os, env, objfmt⟩
  | _ => none

/-- Helper that runs the remaining-field step of the lossy `Target::parse`
(src/pieces.rs): identical shape to the strict step, except unknown values
fall back to the `Unknown` members and the final failure case fills both
os and env with `Unknown`. -/
def Target.parse_fields (f3 : String) (f4 : Option String) :
    Option OS × Option Environment × Option ObjectFormat :=
  match f4 with
  | some s4 => (some (OS.parse f3), some (Environment.parse s4), ObjectFormat.from_str s4)
  | none =>
    match OS.from_str f3 with
    | some o => (some o, none, none)
    | none =>
      match Environment.from_str f3 with
      | some e => (none, some e, ObjectFormat.from_str f3)
      | none =>
        match ObjectFormat.from_str f3 with
        | some of => (none, none, some of)
        | none => (some .Unknown, some .Unknown, none)

/-- Lossy `Target::parse` (src/pieces.rs).  The Rust function panics when
the input has fewer than three `-`-separated segments (the `unwrap`
calls on the second and third segment); the panic is embedded as `none`. -/
def Target.parse (s : String) : Option Target :=
  match split_dash s with
  | a1 :: a2 :: f3 :: rest =>
    let arch := Architecture.parse a1
    let vendor := Vendor.parse a2
    let fields := Target.parse_fields f3 rest.head?
    some ⟨s, arch, vendor, fields.1, fields.2.1, fields.2.2⟩
  | _ => none

/-- Accessor `Target::get_operating_system` (src/pieces.rs). -/
def Target.get_operating_system (t : Target) : OS :=
  t.os.getD .Unknown

/-- Accessor `Target::get_environment` (src/pieces.rs). -/
def Target.get_environment (t : Target) : Environment :=
  t.env.getD .Unknown

/-- Accessor `Target::get_vendor` (src/pieces.rs). -/
def Target.get_vendor (t : Target) : Vendor :=
  t.vendor

/-- Accessor `Target::get_arch` (src/pieces.rs). -/
def Target.get_arch (t : Target) : Architecture :=
  t.arch

/-- The fallback match of `Target::get_object_format` (src/pieces.rs
lines 803-819), factored out verbatim: the static (architecture, os)
table with an ELF fallback. -/
def default_object_format (arch : Architecture) (os : Option OS) : ObjectFormat :=
  match arch, os with
  | .Unknown, some .MacOSX => .MachO
  | .Aarch64, some .MacOSX => .MachO
  | .Aarch64_32, some .MacOSX => .MachO
  | .Arm, some .MacOSX => .MachO
  | .X86, some .MacOSX => .MachO
  | .X86_64, some .MacOSX => .MachO
  | .Unknown, some .Win32 => .Coff
  | .Aarch64, some .Win32 => .Coff
  | .Aarch64_32, some .Win32 => .Coff
  | .Arm, some .Win32 => .Coff
  | .X86, some .Win32 => .Coff
  | .X86_64, some .Win32 => .Coff
  | .PowerPC32, some .AIX => .XCoff
  | .PowerPC64, some .AIX => .XCoff
  | _, _ => .Elf

/-- Method `Target::get_object_format` (src/pieces.rs): the stored object
format when present, otherwise the static table fallback above. -/
def Target.get_object_format (t : Target) : ObjectFormat :=
  match t.objfmt with
  | some of => of
  | none => default_object_format t.arch t.os

/-- The (architecture, os) pairs carrying an entry in the static table of
`get_object_format` (src/pieces.rs lines 804-817). -/
def object_format_table : List (Architecture × OS) :=
  [(.Unknown, .MacOSX), (.Aarch64, .MacOSX), (.Aarch64_32, .MacOSX),
   (.Arm, .MacOSX), (.X86, .MacOSX), (.X86_64, .MacOSX),
   (.Unknown, .Win32), (.Aarch64, .Win32), (.Aarch64_32, .Win32),
   (.Arm, .Win32), (.X86, .Win32), (.X86_64, .Win32),
   (.PowerPC32, .AIX), (.PowerPC64, .AIX)]

/-- Membership of an (architecture, optional os) pair in the static table
of `get_object_format`. -/
def in_object_format_table (arch : Architecture) (os : Option OS) : Prop :=
  match os with
  | some o => (arch, o) ∈ object_format_table
  | none => False

instance (arch : Architecture) (os : Option OS) :
    Decidable (in_object_format_table arch os) := by
  unfold in_object_format_table
  cases os <;> infer_instance

/-- Error raised by the dispatch engine when no arm matched: the
`unreachable!("Incomplete Exhaustive Target Pattern ...")` of the
`match_targets!` macro (src/lib.rs). -/
inductive DispatchError where
  | NonExhaustiveDispatch
deriving DecidableEq, Repr

/-- Dispatch engine of the `match_targets!` macro (src/lib.rs lines
245-264).  The macro expands to an ordered chain
`if p1(t) { break e1 } if p2(t) { break e2 } ... unreachable!()`;
the chain is embedded as a recursion over the ordered arm list, each arm
a compiled predicate paired with its result. -/
def match_targets {α : Type} (arms : List ((Target → Bool) × α)) (t : Target) :
    Except DispatchError α :=
  match arms with
  | [] => .error .NonExhaustiveDispatch
  | (p, r) :: rest => if p t then .ok r else match_targets rest t

/-- Compiled predicate of the `$arch-$vendor-$os-*` arm of
`__match_target_pattern!` (src/lib.rs lines 112-120): the macro parses
the probe tuple `arch-vendor-os-elf` and then compares only
`vendor()` and `operating_system()` of the scrutinee against it.  The
probe string always has four segments, so `Target::parse` cannot panic
there; the impossible branch returns `false`. -/
def match_pattern_arch_vendor_os_star (archS vendorS osS : String) (targ : Target) : Bool :=
  match Target.parse (archS ++ "-" ++ vendorS ++ "-" ++ osS ++ "-elf") with
  | some mtarg =>
    decide (targ.get_vendor = mtarg.get_vendor) &&
      decide (targ.get_operating_system = mtarg.get_operating_system)
  | none => false

end target_tuples

namespace target_tuple_pieces

/-- Architecture field of the `target-tuple-pieces` crate
(target-tuple-pieces/src/lib.rs); the x86 members carry a generation or
microarchitecture level (Rust `u8`, embedded as `Nat`). -/
inductive Architecture where
  | Unknown
  | X86_16 (g : Nat)
  | X86_32 (g : Nat)
  | X86_64 (microarch : Nat)
  | Arm
  | ArmBe
  | Aarch64
  | Aarch64Be
  | Aarch64_32
  | Mips
  | MipsLE
  | Mips64
  | Mips64LE
  | PowerPC32
  | PowerPC64
  | PowerPC64le
  | RiscV32
  | RiscV64
  | Sparc
  | SparcV9
  | SparcEL
  | Wasm32
  | Wasm64
  | Wc65c816
  | M6502
  | M65C02
  | SPC700
  | Clever
  | HoleyBytes
deriving DecidableEq, Repr

/-- FromStr for the reworked Architecture (target-tuple-pieces/src/lib.rs);
exact alias table except the `clever` family, which matches on a leading
piece of the text in its source position. -/
def Architecture.from_str (s : String) : Option Architecture :=
  match s with
  | "i86" | "i8086" | "i086" => some (.X86_16 0)
  | "i186" => some (.X86_16 1)
  | "i286" => some (.X86_16 2)
  | "i386" => some (.X86_32 3)
  | "i486" => some (.X86_32 4)
  | "i586" => some (.X86_32 5)
  | "i686" => some (.X86_32 6)
  | "i786" => some (.X86_32 7)
  | "amd64" | "x86_64" | "x86_64h" | "x64" => some (.X86_64 1)
  | "x86_64v2" => some (.X86_64 2)
  | "x86_64v3" => some (.X86_64 3)
  | "x86_64v4" => some (.X86_64 4)
  | "armeb" => some .ArmBe
  | "arm" => some .Arm
  | "aarch64" | "arm64" | "arm64e" => some .Aarch64
  | "aarch64_be" | "arm64_be" => some .Aarch64Be
  | "aarch64_32" | "arm64_32" => some .Aarch64_32
  | "powerpc" | "powerpcspe" | "ppc" | "ppc32" => some .PowerPC32
  | "powerpc64" | "ppu" | "ppc64" => some .PowerPC64
  | "powerpc64le" | "ppc64le" => some .PowerPC64le
  | "mips" | "mipseb" | "mipsallegrex" | "mipsisa32r6" | "mipsr6" => some .Mips
  | "mipsel" | "mipsallegrexel" | "mipsisa32r6el" | "mipsr6el" => some .MipsLE
  | "mips64" | "mips64eb" | "mipsn32" | "mipsisa64r6" | "mips64r6" | "mipsn32r6" => some .Mips64
  | "mips64el" | "mipsn32el" | "mipsisa64r6el" | "mips64r6el" | "mipsn32r6el" => some .Mips64LE
  | "sparc" => some .Sparc
  | "sparcel" => some .SparcEL
  | "sparcv9" | "sparc64" => some .SparcV9
  | "riscv32" => some .RiscV32
  | "riscv64" => some .RiscV64
  | "wc65c816" | "65816" | "w65c816" | "65c816" | "w65" => some .Wc65c816
  | "6502" | "6502x" | "6502X" => some .M6502
  | "65c02" | "65C02" => some .M65C02
  | "wasm32" => some .Wasm32
  | "wasm64" => some .Wasm64
  | "spc700" | "spc" => some .SPC700
  | "holeybytes" | "hbvm" | "hb" => some .HoleyBytes
  | s => if str_starts s "clever" then some .Clever else none

/-- Lossy Architecture parse of the reworked crate. -/
def Architecture.parse (st : String) : Architecture :=
  (Architecture.from_str st).getD .Unknown

/-- Canonical spelling of the reworked Architecture
(target-tuple-pieces/src/lib.rs `canonical_name`); the Rust range
patterns on the x86 payloads — X86_16 at 2 and above, X86_32 at 3 and
below or 7 and above, X86_64 at microarch 0, 1, or 5 and above — become
the corresponding tests. -/
def Architecture.canonical_name : Architecture → String
  | .Unknown => "unknown"
  | .X86_16 0 => "i86"
  | .X86_16 1 => "i186"
  | .X86_16 _ => "i286"
  | .X86_32 g =>
    if g ≤ 3 then "i386"
    else if g = 4 then "i486"
    else if g = 5 then "i586"
    else if g = 6 then "i686"
    else "i786"
  | .X86_64 m =>
    if m = 2 then "x86_64v2"
    else if m = 3 then "x86_64v3"
    else if m = 4 then "x86_64v4"
    else "x86_64"
  | .Arm => "arm"
  | .ArmBe => "armeb"
  | .Aarch64 => "aarch64"
  | .Aarch64Be => "aarch64_be"
  | .Aarch64_32 => "aarch64_32"
  | .Mips => "mips"
  | .Mips64 => "mips64"
  | .PowerPC32 => "powerpc"
  | .PowerPC64 => "powerpc64"
  | .PowerPC64le => "powerpc64le"
  | .RiscV32 => "riscv32"
  | .RiscV64 => "riscv64"
  | .Sparc => "sparc"
  | .SparcV9 => "sparcv9"
  | .SparcEL => "sparcel"
  | .Wasm32 => "wasm32"
  | .Wasm64 => "wasm64"
  | .Wc65c816 => "w65"
  | .MipsLE => "mipsel"
  | .Mips64LE => "mips64el"
  | .M6502 => "6502"
  | .M65C02 => "6502"
  | .SPC700 => "spc700"
  | .Clever => "clever"
  | .HoleyBytes => "holeybytes"

/-- Operating System field of the reworked crate. -/
inductive OS where
  | Unknown
  | Ananas
  | CloudABI
  | Darwin
  | DragonFly
  | FreeBSD
  | Fuchsia
  | IOS
  | KFreeBSD
  | Linux
  | Lv2
  | MacOSX
  | NetBSD
  | OpenBSD
  | Solaris
  | Win32
  | ZOS
  | Haiku
  | Minix
  | RTEMS
  | NaCl
  | AIX
  | CUDA
  | NVCL
  | AMDHSA
  | PS4
  | ELFIAMCU
  | TvOS
  | WatchOS
  | Mesa3D
  | Contiki
  | AMDPAL
  | HermitCore
  | Hurd
  | WASI
  | Emscripten
  | SNES
  | NES
  | None
  | CleverOS
  | AbleOS
  | Lilium
deriving DecidableEq, Repr, Fintype

/-- FromStr for the reworked OS (target-tuple-pieces/src/lib.rs); guards
match a leading piece of the text in source order, plus the exact
`none` entry. -/
def OS.from_str (s : String) : Option OS :=
  if str_starts s "ananas" then some .Ananas
  else if str_starts s "cloudabi" then some .CloudABI
  else if str_starts s "darwin" then some .Darwin
  else if str_starts s "dragonfly" then some .DragonFly
  else if str_starts s "freebsd" then some .FreeBSD
  else if str_starts s "fuchsia" then some .Fuchsia
  else if str_starts s "ios" then some .IOS
  else if str_starts s "kfreebsd" then some .KFreeBSD
  else if str_starts s "linux" then some .Linux
  else if str_starts s "lv2" then some .Lv2
  else if str_starts s "macos" then some .MacOSX
  else if str_starts s "netbsd" then some .NetBSD
  else if str_starts s "openbsd" then some .OpenBSD
  else if str_starts s "solaris" then some .Solaris
  else if str_starts s "win32" || str_starts s "windows" then some .Win32
  else if str_starts s "zos" then some .ZOS
  else if str_starts s "haiku" then some .Haiku
  else if str_starts s "minix" then some .Minix
  else if str_starts s "rtems" then some .RTEMS
  else if str_starts s "nacl" then some .NaCl
  else if str_starts s "aix" then some .AIX
  else if str_starts s "cuda" then some .CUDA
  else if str_starts s "nvcl" then some .NVCL
  else if str_starts s "amdhsa" then some .AMDHSA
  else if str_starts s "ps4" then some .PS4
  else if str_starts s "elfiamcu" then some .ELFIAMCU
  else if str_starts s "tvos" then some .TvOS
  else if str_starts s "watchos" then some .WatchOS
  else if str_starts s "mesa3d" then some .Mesa3D
  else if str_starts s "contiki" then some .Contiki
  else if str_starts s "amdpal" then some .AMDPAL
  else if str_starts s "hermit" then some .HermitCore
  else if str_starts s "hurd" then some .Hurd
  else if str_starts s "wasi" then some .WASI
  else if str_starts s "emscripten" then some .Emscripten
  else if str_starts s "snes" then some .SNES
  else if str_starts s "nes" then some .NES
  else if str_starts s "cleveros" then some .CleverOS
  else if str_starts s "ableos" then some .AbleOS
  else if str_starts s "lilium" then some .Lilium
  else if s = "none" then some .None
  else none

/-- Lossy OS parse of the reworked crate. -/
def OS.parse (s : String) : OS :=
  (OS.from_str s).getD .Unknown

/-- Canonical spelling of the reworked OS. -/
def OS.canonical_name : OS → String
  | .Unknown => "unknown"
  | .Ananas => "ananas"
  | .CloudABI => "cloudabi"
  | .Darwin => "darwin"
  | .DragonFly => "dragonfly"
  | .FreeBSD => "freebsd"
  | .Fuchsia => "fuchsia"
  | .IOS => "ios"
  | .KFreeBSD => "kfreebsd"
  | .Linux => "linux"
  | .Lv2 => "lv2"
  | .MacOSX => "macos"
  | .NetBSD => "netbsd"
  | .OpenBSD => "openbsd"
  | .Solaris => "solaris"
  | .Win32 => "win32"
  | .ZOS => "zos"
  | .Haiku => "haiku"
  | .Minix => "minix"
  | .RTEMS => "rtems"
  | .NaCl => "nacl"
  | .AIX => "aix"
  | .CUDA => "cuda"
  | .NVCL => "nvcl"
  | .AMDHSA => "amdhsa"
  | .PS4 => "ps4"
  | .ELFIAMCU => "elfiamcu"
  | .TvOS => "tvos"
  | .WatchOS => "watchos"
  | .Mesa3D => "mesa3d"
  | .Contiki => "contiki"
  | .AMDPAL => "amdpal"
  | .HermitCore => "hermit"
  | .Hurd => "hurd"
  | .WASI => "wasi"
  | .Emscripten => "emscripten"
  | .SNES => "snes"
  | .NES => "nes"
  | .None => "none"
  | .CleverOS => "cleveros"
  | .AbleOS => "ableos"
  | .Lilium => "lilium"

/-- Environment field of the reworked crate. -/
inductive Environment where
  | Unknown
  | GNU
  | GNUABIN32
  | GNUABI64
  | GNUEABI
  | GNUEABIHF
  | GNUX32
  | CODE16
  | EABI
  | EABIHF
  | Android
  | Musl
  | MuslEABI
  | MuslEABIHF
  | MSVC
  | Itanium
  | Cygnus
  | CoreCLR
  | Simulator
  | MacABI
  | Standard
  | Kernel
deriving DecidableEq, Repr, Fintype

/-- FromStr for the reworked Environment; guards tried in source order. -/
def Environment.from_str (s : String) : Option Environment :=
  if str_starts s "eabihf" then some .EABIHF
  else if str_starts s "eabi" then some .EABI
  else if str_starts s "gnuabin32" then some .GNUABIN32
  else if str_starts s "gnuabi64" then some .GNUABI64
  else if str_starts s "gnueabihf" then some .GNUEABIHF
  else if str_starts s "gnueabi" then some .GNUEABI
  else if str_starts s "gnux32" then some .GNUX32
  else if str_starts s "gnu" then some .GNU
  else if str_starts s "code16" then some .CODE16
  else if str_starts s "android" then some .Android
  else if str_starts s "musleabihf" then some .MuslEABIHF
  else if str_starts s "musleabi" then some .MuslEABI
  else if str_starts s "musl" then some .Musl
  else if str_starts s "msvc" then some .MSVC
  else if str_starts s "itanium" then some .Itanium
  else if str_starts s "cygnus" then some .Cygnus
  else if str_starts s "coreclr" then some .CoreCLR
  else if str_starts s "simulator" then some .Simulator
  else if str_starts s "macabi" then some .MacABI
  else if str_starts s "std" then some .Standard
  else if str_starts s "kernel" then some .Kernel
  else none

/-- Lossy Environment parse of the reworked crate. -/
def Environment.parse (s : String) : Environment :=
  (Environment.from_str s).getD .Unknown

/-- Canonical spelling of the reworked Environment. -/
def Environment.canonical_name : Environment → String
  | .Unknown => "unknown"
  | .GNU => "gnu"
  | .GNUABIN32 => "gnuabin32"
  | .GNUABI64 => "gnuabi64"
  | .GNUEABI => "gnueabi"
  | .GNUEABIHF => "gnueabihf"
  | .GNUX32 => "gnux32"
  | .CODE16 => "code16"
  | .EABI => "eabi"
  | .EABIHF => "eabihf"
  | .Android => "android"
  | .Musl => "musl"
  | .MuslEABI => "musleabi"
  | .MuslEABIHF => "musleabihf"
  | .MSVC => "msvc"
  | .Itanium => "itanium"
  | .Cygnus => "cygnus"
  | .CoreCLR => "coreclr"
  | .Simulator => "simulator"
  | .MacABI => "macabi"
  | .Standard => "std"
  | .Kernel => "kernel"

/-- Object format of the reworked crate. -/
inductive ObjectFormat where
  | Unknown
  | XCoff
  | Coff
  | Elf
  | Goff
  | MachO
  | Wasm
  | Xo65
  | O65
  | WlaObj
deriving DecidableEq, Repr, Fintype

/-- FromStr for the reworked ObjectFormat; guards match on a trailing
piece of the text in source order. -/
def ObjectFormat.from_str (s : String) : Option ObjectFormat :=
  if str_ends s "xcoff" then some .XCoff
  else if str_ends s "coff" then some .Coff
  else if str_ends s "elf" then some .Elf
  else if str_ends s "goff" then some .Goff
  else if str_ends s "macho" then some .MachO
  else if str_ends s "wasm" then some .Wasm
  else if str_ends s "xo65" then some .Xo65
  else if str_ends s "o65" then some .O65
  else if str_ends s "wlaobj" then some .WlaObj
  else if str_ends s "wla" then some .WlaObj
  else none

/-- Lossy ObjectFormat parse of the reworked crate. -/
def ObjectFormat.parse (s : String) : ObjectFormat :=
  (ObjectFormat.from_str s).getD .Unknown

/-- Canonical spelling of the reworked ObjectFormat. -/
def ObjectFormat.canonical_name : ObjectFormat → String
  | .Unknown => "unknown"
  | .XCoff => "xcoff"
  | .Coff => "coff"
  | .Elf => "elf"
  | .Goff => "goff"
  | .MachO => "macho"
  | .Wasm => "wasm"
  | .Xo65 => "xo65"
  | .O65 => "o65"
  | .WlaObj => "wlaobj"

/-- System record of the reworked crate (target-tuple-pieces/src/lib.rs). -/
structure System where
  os : Option OS
  env : Option Environment
  objfmt : Option ObjectFormat
deriving DecidableEq, Repr

/-- Constructor `System::from_pieces`; the Rust function asserts that at
least one piece is `Some` and panics otherwise — the panic is embedded as
`none`. -/
def System.from_pieces (os : Option OS) (env : Option Environment)
    (objfmt : Option ObjectFormat) : Option System :=
  if os.isSome || env.isSome || objfmt.isSome then some ⟨os, env, objfmt⟩ else none

/-- Constructor `System::from_os`. -/
def System.from_os (os : OS) : System :=
  ⟨some os, none, none⟩

/-- Constructor `System::from_os_env`. -/
def System.from_os_env (os : OS) (env : Environment) : System :=
  ⟨some os, some env, none⟩

/-- Constructor `System::from_env`. -/
def System.from_env (env : Environment) : System :=
  ⟨none, some env, none⟩

/-- Constructor `System::from_objfmt`. -/
def System.from_objfmt (objfmt : ObjectFormat) : System :=
  ⟨none, none, some objfmt⟩

/-- Accessor `System::object_format`. -/
def System.object_format (s : System) : Option ObjectFormat :=
  s.objfmt

/-- Display rendering of a System (target-tuple-pieces/src/lib.rs
`impl Display for System`): a mutable separator starts empty, becomes `-`
after the os is written, and is reset to empty after the env is written,
so the objfmt is appended to a present env with no separator. -/
def System.render (s : System) : String :=
  let sep := ""
  let (out, sep) :=
    match s.os with
    | some os => (OS.canonical_name os, "-")
    | none => ("", sep)
  let (out, sep) :=
    match s.env with
    | some env => (out ++ sep ++ Environment.canonical_name env, "")
    | none => (out, sep)
  match s.objfmt with
  | some objfmt => out ++ sep ++ ObjectFormat.canonical_name objfmt
  | none => out

/-- FromStr for System (target-tuple-pieces/src/lib.rs
`impl FromStr for System`): with a dash, the leading piece must be an OS
and the rest must yield an environment or an object format (both parsed
independently from the same text); without a dash, OS is tried first,
then environment and object format under the same either-succeeds rule. -/
def System.from_str (sys : String) : Option System :=
  match split_once sys with
  | some (os, senv) =>
    match OS.from_str os with
    | none => none
    | some os =>
      if (Environment.from_str senv).isNone && (ObjectFormat.from_str senv).isNone then none
      else some ⟨some os, Environment.from_str senv, ObjectFormat.from_str senv⟩
  | none =>
    match OS.from_str sys with
    | some os => some ⟨some os, none, none⟩
    | none =>
      if (Environment.from_str sys).isNone && (ObjectFormat.from_str sys).isNone then none
      else some ⟨none, Environment.from_str sys, ObjectFormat.from_str sys⟩

end target_tuple_pieces

/-- Number of dash characters in a string. -/
def count_dash (s : String) : Nat :=
  s.data.count '-'

/-- C1: the spec asserts that a 3-segment tuple whose post-architecture
remainder parses as a 2-segment System takes the vendor-omitted
interpretation, so that disambiguating "x86_64-linux-gnu" yields vendor
absent, os Linux and env GNU.  The crate under src/ contradicts this:
`Target::from_str` unconditionally classifies the second segment as the
vendor (total, yielding `Vendor.Unknown` for "linux") and parses only the
third segment as a one-token system, so "x86_64-linux-gnu" comes back
with vendor Unknown, no os and env GNU, and an absent vendor is not even
representable in this `Target`.  The vendor-present reading of
"x86_64-pc-linux" agrees with the claim.  The reworked crate's tests
(tests/match-targets.rs expects "x86_64-linux-musl" to carry os Linux)
show the claim matches the intended behaviour, hence a code bug. -/
theorem from_str_vendor_never_omitted :
    target_tuples.Target.from_str "x86_64-linux-gnu" =
      some ⟨"x86_64-linux-gnu", .X86_64, .Unknown, none, some .GNU, none⟩ ∧
    target_tuples.Target.from_str "x86_64-pc-linux" =
      some ⟨"x86_64-pc-linux", .X86_64, .PC, some .Linux, none, none⟩ := by
  decide

/-- C2: the spec asserts that a 2-segment tuple whose second segment
classifies as an OS, Environment or ObjectFormat disambiguates with
vendor absent.  The crate under src/ contradicts this: both
`Target::from_str` and `Target::parse` demand a third segment ("elf"
classifies as an object format, yet "wc65c816-elf" and "i386-elf" are
rejected; the lossy parse panics there, embedded as `none`).  The
workspace test list (tests/match-targets.rs TARGET_STRINGS) contains
"wc65c816-elf" and expects it to classify, hence a code bug. -/
theorem from_str_rejects_two_segment_tuples :
    target_tuples.Target.from_str "wc65c816-elf" = none ∧
    target_tuples.Target.from_str "i386-elf" = none ∧
    target_tuples.Target.parse "wc65c816-elf" = none ∧
    target_tuples.ObjectFormat.from_str "elf" = some .Elf ∧
    target_tuples.Architecture.from_str "wc65c816" = some .Wc65c816 := by
  decide

/-- C5: the spec asserts the round trip classify(kind, canonical_name(v))
= v for every member of every field enumeration.  The reworked crate's
Architecture contradicts this (and its own doc comment): the canonical
name of `M65C02` is "6502", which classifies as `M6502`, a different
member.  Hence a code bug at member M65C02. -/
theorem canonical_round_trip_fails_for_M65C02 :
    target_tuple_pieces.Architecture.canonical_name .M65C02 = "6502" ∧
    target_tuple_pieces.Architecture.parse "6502" = .M6502 ∧
    target_tuple_pieces.Architecture.parse
        (target_tuple_pieces.Architecture.canonical_name .M65C02) ≠ .M65C02 := by
  decide

/-- C9: a positional wildcard must relax only its own field, so the
4-fragment pattern arch-vendor-os-star may match only when architecture,
vendor and operating system all equal the literal fragments.  The
`$arch-$vendor-$os-*` arm of `__match_target_pattern!` (src/lib.rs lines
112-120) contradicts this: its compiled predicate compares only the
vendor and the operating system, omitting the architecture comparison its
sibling arms perform, so the pattern x86_64-pc-linux-star accepts the
target "i686-pc-linux-gnu" whose architecture is X86, not X86_64.  The
proc-macro reimplementation (target-tuples-macro parse_match_arm) does
pin the architecture, hence a code bug in the older engine. -/
theorem pattern_arch_vendor_os_star_ignores_arch :
    (target_tuples.Target.parse "i686-pc-linux-gnu").map
      (target_tuples.match_pattern_arch_vendor_os_star "x86_64" "pc" "linux") = some true ∧
    (target_tuples.Target.parse "i686-pc-linux-gnu").map target_tuples.Target.get_arch =
      some .X86 ∧
    target_tuples.Architecture.from_str "x86_64" = some .X86_64 ∧
    target_tuples.Architecture.X86 ≠ target_tuples.Architecture.X86_64 := by
  decide

/-- C10: the lossy `Target::parse` succeeds exactly on inputs with at
least three dash-separated segments (unrecognized segments fall back to
the Unknown members, witnessed by "foo-bar-baz") and panics — embedded as
`none` — on fewer. -/
theorem target_parse_some_iff_three_segments :
    (∀ s : String, (target_tuples.Target.parse s).isSome ↔ 3 ≤ (split_dash s).length) ∧
    target_tuples.Target.parse "foo-bar-baz" =
      some ⟨"foo-bar-baz", .Unknown, .Unknown, some .Unknown, some .Unknown, none⟩ := by
  constructor
  · intro s
    unfold target_tuples.Target.parse
    rcases h : split_dash s with _ | ⟨a, _ | ⟨b, _ | ⟨c, t3⟩⟩⟩ <;> simp
  · decide

/-- C3: the dispatch of `match_targets!` is first-match-wins: whenever
every arm before A rejects the target and A's predicate accepts it, the
dispatch returns A's result, whatever arms follow — in particular, when a
later arm B would also match, B's result is never returned and no
predicate or result after A is consulted (the conclusion does not depend
on `post`). -/
theorem match_targets_first_match_wins {α : Type}
    (pre : List ((target_tuples.Target → Bool) × α))
    (A : (target_tuples.Target → Bool) × α)
    (post : List ((target_tuples.Target → Bool) × α))
    (t : target_tuples.Target)
    (hpre : ∀ arm ∈ pre, arm.1 t = false) (hA : A.1 t = true) :
    target_tuples.match_targets (pre ++ A :: post) t = .ok A.2 := by
  induction pre with
  | nil =>
    obtain ⟨p, r⟩ := A
    have hA2 : p t = true := hA
    simp only [List.nil_append, target_tuples.match_targets]
    simp [hA2]
  | cons a l ih =>
    obtain ⟨p, r⟩ := a
    have ha : p t = false := hpre ⟨p, r⟩ (List.mem_cons_self _ _)
    have hl : ∀ arm ∈ l, arm.1 t = false := fun arm h => hpre arm (List.mem_cons_of_mem _ h)
    simp only [List.cons_append, target_tuples.match_targets, ha]
    simpa using ih hl

/-- Witness for C3: three concrete arms, the first rejecting, the second
and third both accepting with different results; the dispatch returns the
second arm's result, not the third's. -/
theorem match_targets_first_match_wins_witness :
    target_tuples.match_targets
      [((fun _ => false), (10 : Nat)), ((fun _ => true), 1), ((fun _ => true), 2)]
      ⟨"", .Unknown, .Unknown, none, none, none⟩ = .ok 1 :=
  match_targets_first_match_wins [((fun _ => false), (10 : Nat))] ((fun _ => true), 1)
    [((fun _ => true), 2)] ⟨"", .Unknown, .Unknown, none, none, none⟩
    (by intro arm h; rcases List.mem_singleton.mp h with rfl; rfl) rfl

/-- C4: when no arm of a dispatch accepts the target, `match_targets!`
reaches its trailing `unreachable!` — embedded as the distinct error
`NonExhaustiveDispatch` — and never returns an ordinary result. -/
theorem match_targets_non_exhaustive {α : Type}
    (arms : List ((target_tuples.Target → Bool) × α))
    (t : target_tuples.Target)
    (h : ∀ arm ∈ arms, arm.1 t = false) :
    target_tuples.match_targets arms t = .error .NonExhaustiveDispatch ∧
    ∀ r : α, target_tuples.match_targets arms t ≠ .ok r := by
  have main : target_tuples.match_targets arms t = .error .NonExhaustiveDispatch := by
    induction arms with
    | nil => rfl
    | cons a l ih =>
      obtain ⟨p, r⟩ := a
      have ha : p t = false := h ⟨p, r⟩ (List.mem_cons_self _ _)
      have hl : ∀ arm ∈ l, arm.1 t = false := fun arm hm => h arm (List.mem_cons_of_mem _ hm)
      simp only [target_tuples.match_targets, ha]
      simpa using ih hl
  refine ⟨main, fun r hr => ?_⟩
  rw [main] at hr
  exact Except.noConfusion hr

/-- Witness for C4: a single rejecting arm and no wildcard; the dispatch
reports `NonExhaustiveDispatch` instead of any default value. -/
theorem match_targets_non_exhaustive_witness :
    target_tuples.match_targets [((fun _ => false), (0 : Nat))]
      ⟨"", .Unknown, .Unknown, none, none, none⟩ = .error .NonExhaustiveDispatch ∧
    ∀ r : Nat, target_tuples.match_targets [((fun _ => false), (0 : Nat))]
      ⟨"", .Unknown, .Unknown, none, none, none⟩ ≠ .ok r :=
  match_targets_non_exhaustive [((fun _ => false), (0 : Nat))]
    ⟨"", .Unknown, .Unknown, none, none, none⟩
    (by intro arm h; rcases List.mem_singleton.mp h with rfl; rfl)

/-- Helper for C6: outside the static table the fallback is ELF. -/
lemma default_object_format_outside_table :
    ∀ (a : target_tuples.Architecture) (o : Option target_tuples.OS),
      ¬ target_tuples.in_object_format_table a o →
      target_tuples.default_object_format a o = .Elf := by
  decide

/-- C6: `Target::get_object_format` returns the stored object format when
the system carried one; with none stored, any x86-variant architecture
with OS macOS reports Mach-O, each architecture listed in the static
table with OS Windows reports COFF, PowerPC32 or PowerPC64 with OS AIX
reports XCOFF, and every (architecture, os) pair outside the static table
falls back to ELF. -/
theorem get_object_format_spec (t : target_tuples.Target) :
    (∀ of, t.objfmt = some of → t.get_object_format = of) ∧
    (t.objfmt = none → (t.arch = .X86 ∨ t.arch = .X86_64) → t.os = some .MacOSX →
      t.get_object_format = .MachO) ∧
    (t.objfmt = none →
      t.arch ∈ [target_tuples.Architecture.Unknown, .Aarch64, .Aarch64_32, .Arm, .X86, .X86_64] →
      t.os = some .Win32 → t.get_object_format = .Coff) ∧
    (t.objfmt = none → (t.arch = .PowerPC32 ∨ t.arch = .PowerPC64) → t.os = some .AIX →
      t.get_object_format = .XCoff) ∧
    (t.objfmt = none → ¬ target_tuples.in_object_format_table t.arch t.os →
      t.get_object_format = .Elf) := by
  obtain ⟨fu, a, v, o, e, ob⟩ := t
  refine ⟨?_, ?_, ?_, ?_, ?_⟩
  · intro of h
    cases h
    rfl
  · intro h hx ho
    cases h
    cases ho
    rcases hx with rfl | rfl <;> rfl
  · intro h hmem ho
    cases h
    cases ho
    fin_cases hmem <;> rfl
  · intro h hx ho
    cases h
    cases ho
    rcases hx with rfl | rfl <;> rfl
  · intro h htab
    cases h
    exact default_object_format_outside_table a o htab

/-- Witness for C6: concrete instantiations — an i386 macOS target with
no stored format reports Mach-O, and a SPARC Linux target (outside the
table) reports ELF. -/
theorem get_object_format_spec_witness :
    (target_tuples.Target.mk "" .X86 .PC (some .MacOSX) none none).get_object_format =
      .MachO ∧
    (target_tuples.Target.mk "" .Sparc .Unknown (some .Linux) none none).get_object_format =
      .Elf :=
  ⟨(get_object_format_spec _).2.1 rfl (Or.inl rfl) rfl,
   (get_object_format_spec _).2.2.2.2 rfl (by decide)⟩

/-- C7: every System reachable through the public constructors and the
system parser has at least one sub-field present: `from_pieces` rejects
(panics, embedded as `none`) the all-absent combination and otherwise
hands back its pieces, the four dedicated constructors each store a
field, and every success of `FromStr for System` populates at least one
of os, env, objfmt. -/
theorem system_invariant_at_least_one_field :
    (target_tuple_pieces.System.from_pieces none none none = none) ∧
    (∀ os env objfmt s, target_tuple_pieces.System.from_pieces os env objfmt = some s →
      s.os.isSome = true ∨ s.env.isSome = true ∨ s.objfmt.isSome = true) ∧
    (∀ os, (target_tuple_pieces.System.from_os os).os.isSome = true) ∧
    (∀ os env, (target_tuple_pieces.System.from_os_env os env).os.isSome = true) ∧
    (∀ env, (target_tuple_pieces.System.from_env env).env.isSome = true) ∧
    (∀ objfmt, (target_tuple_pieces.System.from_objfmt objfmt).objfmt.isSome = true) ∧
    (∀ str s, target_tuple_pieces.System.from_str str = some s →
      s.os.isSome = true ∨ s.env.isSome = true ∨ s.objfmt.isSome = true) := by
  refine ⟨rfl, ?_, fun _ => rfl, fun _ _ => rfl, fun _ => rfl, fun _ => rfl, ?_⟩
  · intro os env objfmt s h
    unfold target_tuple_pieces.System.from_pieces at h
    split at h
    · rename_i hc
      injection h with h2
      subst h2
      simp only [Bool.or_eq_true] at hc
      tauto
    · exact absurd h (by simp)
  · intro str s h
    unfold target_tuple_pieces.System.from_str at h
    split at h
    · split at h
      · exact absurd h (by simp)
      · split at h
        · exact absurd h (by simp)
        · injection h with h2
          subst h2
          simp
    · split at h
      · injection h with h2
        subst h2
        simp
      · split at h
        · exact absurd h (by simp)
        · rename_i hguard
          injection h with h2
          subst h2
          rcases he : target_tuple_pieces.Environment.from_str str with _ | e
          · rcases hf : target_tuple_pieces.ObjectFormat.from_str str with _ | f
            · exact absurd (by rw [he, hf]; rfl) hguard
            · right; right; simp [hf]
          · right; left; simp [he]

/-- Witness for C7: the parser applied to "linux-gnu" produces a System
whose os field is populated. -/
theorem system_invariant_at_least_one_field_witness :
    (⟨some .Linux, some .GNU, none⟩ : target_tuple_pieces.System).os.isSome = true ∨
    (⟨some .Linux, some .GNU, none⟩ : target_tuple_pieces.System).env.isSome = true ∨
    (⟨some .Linux, some .GNU, none⟩ : target_tuple_pieces.System).objfmt.isSome = true :=
  system_invariant_at_least_one_field.2.2.2.2.2.2 "linux-gnu"
    ⟨some .Linux, some .GNU, none⟩ (by decide)

/-- Helper for C8: concatenation adds dash counts. -/
lemma count_dash_append (a b : String) : count_dash (a ++ b) = count_dash a + count_dash b := by
  show List.count _ (a.data ++ b.data) = _
  exact List.count_append _ _ _

/-- Helper for C8: no OS canonical name holds a dash. -/
lemma os_canonical_count_dash :
    ∀ o : target_tuple_pieces.OS, count_dash (target_tuple_pieces.OS.canonical_name o) = 0 := by
  decide

/-- Helper for C8: no Environment canonical name holds a dash. -/
lemma env_canonical_count_dash :
    ∀ e : target_tuple_pieces.Environment,
      count_dash (target_tuple_pieces.Environment.canonical_name e) = 0 := by
  decide

/-- Helper for C8: no ObjectFormat canonical name holds a dash. -/
lemma objfmt_canonical_count_dash :
    ∀ f : target_tuple_pieces.ObjectFormat,
      count_dash (target_tuple_pieces.ObjectFormat.canonical_name f) = 0 := by
  decide

/-- Helper for C8: the empty string holds no dash. -/
lemma count_dash_empty : count_dash "" = 0 := by
  decide

/-- Helper for C8: the separator string holds one dash. -/
lemma count_dash_single_dash : count_dash "-" = 1 := by
  decide

/-- C8 counterexample: the System with env GNU and objfmt Elf — reachable
both through `from_pieces` and by parsing "gnuelf" — has exactly two
present sub-fields yet renders as "gnuelf" with zero dashes, refuting the
claim that every 2-field System renders with exactly one dash. -/
theorem system_render_env_objfmt_renders_without_dash :
    target_tuple_pieces.System.from_pieces none (some .GNU) (some .Elf) =
      some ⟨none, some .GNU, some .Elf⟩ ∧
    target_tuple_pieces.System.from_str "gnuelf" = some ⟨none, some .GNU, some .Elf⟩ ∧
    target_tuple_pieces.System.render ⟨none, some .GNU, some .Elf⟩ = "gnuelf" ∧
    count_dash (target_tuple_pieces.System.render ⟨none, some .GNU, some .Elf⟩) = 0 := by
  refine ⟨by decide, by decide, by decide, by decide⟩

/-- C8 as amended: rendering emits os, env, objfmt in that order and a
separator dash appears exactly between the os and a later present field;
env and objfmt concatenate with no separator (the objfmt is parsed back
as a suffix of the env segment).  Hence the rendering holds exactly one
dash when os is present together with env or objfmt, and none otherwise —
in particular a 1-field System renders with no dash, and a 2-field System
renders with one dash unless its two fields are env and objfmt. -/
theorem system_render_dash_count (s : target_tuple_pieces.System) :
    count_dash s.render =
      if s.os.isSome && (s.env.isSome || s.objfmt.isSome) then 1 else 0 := by
  obtain ⟨os, env, objfmt⟩ := s
  rcases os with _ | o <;> rcases env with _ | e <;> rcases objfmt with _ | f <;>
    simp [target_tuple_pieces.System.render, count_dash_append, count_dash_empty,
      count_dash_single_dash, os_canonical_count_dash, env_canonical_count_dash,
      objfmt_canonical_count_dash]
